import Mathlib

/-!
Verification of the vision-to-speech assistant (`src/main.py`).

The program probes two remote backends (a Qwen vision-chat model and an
OpenAI text-to-speech model), generates an image description, and
synthesizes speech from it.  We embed the program shallowly: each remote
backend is an abstract function from a request to `Except String response`
(an `Except.error` models a raised exception, the `String` carrying the
Python exception's message); each Python function becomes a pure Lean
function that additionally returns the list of backend requests it issued
and the user-facing Streamlit messages it emitted, and the orchestrator
`main` returns the final filesystem together with a trace of events.
PIL's PNG serialization is abstracted: an image is represented by the byte
list its `save(format="PNG")` call produces; base64 encoding of those
bytes is implemented genuinely.
-/

set_option autoImplicit false

namespace ImageCaption

/-- A user-facing message emitted through the Streamlit reporting channel
(`st.warning` / `st.error`). -/
inductive UIMsg where
  | warning (text : String)
  | error (text : String)
  deriving DecidableEq, Repr

/-- One part of a structured chat-message content list: a text instruction
or an image reference by data URI. -/
inductive ContentPart where
  | text (s : String)
  | imageUrl (url : String)
  deriving DecidableEq, Repr

/-- The content of a chat message: `main.py` uses a plain string for the
probe (`"Test"`) and a list of parts for the description request. -/
inductive MessageContent where
  | plain (s : String)
  | parts (ps : List ContentPart)
  deriving DecidableEq, Repr

/-- A chat message, `{"role": ..., "content": ...}`. -/
structure ChatMessage where
  role : String
  content : MessageContent
  deriving DecidableEq, Repr

/-- A chat-completions request as `qwen_client.chat.completions.create`
receives it: model name, messages, `max_tokens`. -/
structure ChatRequest where
  model : String
  messages : List ChatMessage
  max_tokens : Nat
  deriving DecidableEq, Repr

/-- The message inside one choice of a chat response. -/
structure ChoiceMessage where
  content : String
  deriving DecidableEq, Repr

/-- One choice of a chat response (`response.choices[i]`). -/
structure Choice where
  message : ChoiceMessage
  deriving DecidableEq, Repr

/-- A chat-completions response: a list of choices. -/
structure ChatResponse where
  choices : List Choice
  deriving DecidableEq, Repr

/-- A speech-synthesis request as `openai_client.audio.speech.create`
receives it: model name, voice, input text. -/
structure SpeechRequest where
  model : String
  voice : String
  input : String
  deriving DecidableEq, Repr

/-- A vision backend: maps a chat request to a response, or to the message
of the exception the call raises. -/
def ChatBackend : Type := ChatRequest → Except String ChatResponse

/-- A speech backend: maps a synthesis request to the streamed audio bytes,
or to the message of the exception the call raises. -/
def SpeechBackend : Type := SpeechRequest → Except String (List Nat)

/-- The local filesystem: a map from path to file contents (bytes). -/
def FS : Type := String → Option (List Nat)

/-- An image, represented by the bytes its PIL PNG serialization
(`image.save(buffered, format="PNG")`) produces. -/
structure Image where
  pngBytes : List Nat
  deriving DecidableEq, Repr

/-- The standard base64 alphabet. -/
def base64Alphabet : String :=
  "ABCDEFGHIJKLMNOPQRSTUVWXYZabcdefghijklmnopqrstuvwxyz0123456789+/"

/-- The base64 digit for a 6-bit value. -/
def b64char (n : Nat) : Char := base64Alphabet.toList.getD n 'A'

/-- Base64 encoding of a byte list (standard alphabet, `=` padding),
as `base64.b64encode(...).decode("utf-8")` computes it. -/
def base64encode : List Nat → List Char
  | [] => []
  | [a] => [b64char (a / 4), b64char (a % 4 * 16), '=', '=']
  | [a, b] => [b64char (a / 4), b64char (a % 4 * 16 + b / 16), b64char (b % 16 * 4), '=']
  | a :: b :: c :: rest =>
      b64char (a / 4) :: b64char (a % 4 * 16 + b / 16) ::
      b64char (b % 16 * 4 + c / 64) :: b64char (c % 64) :: base64encode rest

/-- `encode_image` of `main.py`: serialize the image to PNG bytes and
base64-encode them. -/
def encode_image (image : Image) : String := String.mk (base64encode image.pngBytes)

/-- The primary vision model name of `check_qwen_model_availability`. -/
def qwenPrimaryModel : String := "qwen2-vl-7b-instruct"

/-- The fallback vision model name of `check_qwen_model_availability`. -/
def qwenFallbackModel : String := "qwen-vl-max"

/-- The minimal probe request `check_qwen_model_availability` issues:
one user message `"Test"`, `max_tokens=1`. -/
def probeRequest (model : String) : ChatRequest :=
  ⟨model, [⟨"user", MessageContent.plain "Test"⟩], 1⟩

/-- What a vision-probe call returns, together with its side effects: the
backend requests issued (in order) and the messages emitted (in order). -/
structure CheckResult where
  requests : List ChatRequest
  messages : List UIMsg
  available : Bool
  model : Option String

/-- `check_qwen_model_availability` of `main.py`: probe the primary model;
on any exception warn and probe the fallback; on a second exception report
an error and return `(False, None)`. -/
def check_qwen_model_availability (backend : ChatBackend) : CheckResult :=
  match backend (probeRequest qwenPrimaryModel) with
  | .ok _ => ⟨[probeRequest qwenPrimaryModel], [], true, some qwenPrimaryModel⟩
  | .error e =>
    let w := UIMsg.warning ("Qwen Model (qwen2-vl-7b-instruct) not available: " ++ e)
    match backend (probeRequest qwenFallbackModel) with
    | .ok _ =>
        ⟨[probeRequest qwenPrimaryModel, probeRequest qwenFallbackModel],
         [w], true, some qwenFallbackModel⟩
    | .error fe =>
        ⟨[probeRequest qwenPrimaryModel, probeRequest qwenFallbackModel],
         [w, UIMsg.error ("Fallback Qwen Model (qwen-vl-max) not available: " ++ fe)],
         false, none⟩

/-- The fixed TTS model name of `check_openai_tts_availability`. -/
def ttsModelName : String := "tts-1-hd"

/-- The minimal probe request `check_openai_tts_availability` issues:
model `"tts-1-hd"`, voice `"alloy"`, input `"Test"`. -/
def ttsProbeRequest : SpeechRequest := ⟨ttsModelName, "alloy", "Test"⟩

/-- What the speech-probe call returns, together with its side effects. -/
structure TTSCheckResult where
  requests : List SpeechRequest
  messages : List UIMsg
  available : Bool
  model : Option String

/-- `check_openai_tts_availability` of `main.py`: one probe against
`"tts-1-hd"`; on any exception emit an error and a warning and return
`(False, None)`. -/
def check_openai_tts_availability (backend : SpeechBackend) : TTSCheckResult :=
  match backend ttsProbeRequest with
  | .ok _ => ⟨[ttsProbeRequest], [], true, some ttsModelName⟩
  | .error e =>
      ⟨[ttsProbeRequest],
       [UIMsg.error ("OpenAI TTS model (tts-1-hd) not available: " ++ e),
        UIMsg.warning
          "TTS functionality is unavailable. The app will display the text description only."],
       false, none⟩

/-- The chat request `generate_text_from_image` issues: the fixed
instruction, the image as a base64 PNG data URI, `max_tokens=500`. -/
def describeRequest (image : Image) (model_name : String) : ChatRequest :=
  ⟨model_name,
   [⟨"user",
     MessageContent.parts
       [ContentPart.text "Describe the content of the image in detail.",
        ContentPart.imageUrl ("data:image/png;base64," ++ encode_image image)]⟩],
   500⟩

/-- What `generate_text_from_image` returns, together with its side
effects. -/
structure GenResult where
  requests : List ChatRequest
  messages : List UIMsg
  result : Option String

/-- `generate_text_from_image` of `main.py`: issue one chat request and
return `response.choices[0].message.content`; any exception — including
the `IndexError` from an empty `choices` list — is caught, reported via
`st.error`, and turned into `None`. -/
def generate_text_from_image (backend : ChatBackend) (image : Image)
    (model_name : String) : GenResult :=
  match backend (describeRequest image model_name) with
  | .ok response =>
    match response.choices with
    | [] =>
        ⟨[describeRequest image model_name],
         [UIMsg.error "Error generating text from image: list index out of range"], none⟩
    | choice :: _ => ⟨[describeRequest image model_name], [], some choice.message.content⟩
  | .error e =>
      ⟨[describeRequest image model_name],
       [UIMsg.error ("Error generating text from image: " ++ e)], none⟩

/-- Python truthiness test for an optional string: `None` and `""` are
falsy (`if not tts_model`, `if description`). -/
def pyFalsy : Option String → Bool
  | none => true
  | some s => s.data.isEmpty

/-- The Python slice `s[i:j]` (indices in code points, like Lean chars). -/
def pySlice (s : String) (i j : Nat) : String :=
  String.mk (((s.data).drop i).take (j - i))

/-- The chunk list of `text_to_speech`:
`[text[i:i + max_length] for i in range(0, len(text), max_length)]`. -/
def sliceChunks (text : String) (max_length : Nat) : List String :=
  (List.range ((text.data.length + max_length - 1) / max_length)).map
    fun k => pySlice text (k * max_length) (k * max_length + max_length)

/-- The fixed output path of `text_to_speech`. -/
def speechFilePath : String := "speech.mp3"

/-- What `text_to_speech` returns, together with its side effects: the
resulting filesystem, the synthesis requests issued and the messages
emitted. -/
structure TTSResult where
  fs : FS
  requests : List SpeechRequest
  messages : List UIMsg
  result : Option String

/-- `text_to_speech` of `main.py`: return `None` if `tts_model` is falsy;
split the text into 4096-character chunks; issue one synthesis request
with `chunks[0]` and stream the audio to `"speech.mp3"`, returning that
path.  Any exception in the `try` block — the `IndexError` from
`chunks[0]` on an empty chunk list, or an error raised by the backend
call — is caught, reported via `st.error`, and turned into `None`. -/
def text_to_speech (backend : SpeechBackend) (fs : FS) (text : String)
    (voice_type : String) (tts_model : Option String) : TTSResult :=
  if pyFalsy tts_model then ⟨fs, [], [], none⟩
  else
    match sliceChunks text 4096 with
    | [] =>
        ⟨fs, [],
         [UIMsg.error "Error in text-to-speech conversion: list index out of range"], none⟩
    | chunk0 :: _ =>
      match backend ⟨tts_model.getD "", voice_type, chunk0⟩ with
      | .ok audio =>
          ⟨fun p => if p = speechFilePath then some audio else fs p,
           [⟨tts_model.getD "", voice_type, chunk0⟩], [], some speechFilePath⟩
      | .error e =>
          ⟨fs, [⟨tts_model.getD "", voice_type, chunk0⟩],
           [UIMsg.error ("Error in text-to-speech conversion: " ++ e)], none⟩

/-- One observable step of the orchestrator `main` (the static
presentational intro — page config, CSS, title, upload prompt and the
truncation note — is omitted; everything from the probes on is traced). -/
inductive Event where
  | ui (m : UIMsg)
  | successNote (s : String)
  | showText (s : String)
  | chatCall (r : ChatRequest)
  | speechCall (r : SpeechRequest)
  | showImage
  | audio (bytes : List Nat)
  | downloadButton (bytes : List Nat)
  deriving DecidableEq, Repr

/-- The external world one run of `main` sees: the two backends, the
uploaded image (if any), whether the generate button was pressed, the
voice the selectbox returns, and the initial filesystem. -/
structure Env where
  qwenBackend : ChatBackend
  ttsBackend : SpeechBackend
  uploadedImage : Option Image
  buttonPressed : Bool
  selectedVoice : String
  fs : FS

/-- `main` of `main.py`, from the probes on: probe the vision backend and
halt on failure; probe the speech backend; on an uploaded image and a
button press, generate a description; if the description is truthy show
it, then — only if TTS is available — synthesize speech and, on success,
offer playback and download of the written file's bytes. -/
def main (env : Env) : FS × List Event :=
  let q := check_qwen_model_availability env.qwenBackend
  let qTrace := q.requests.map Event.chatCall ++ q.messages.map Event.ui
  if q.available = false then
    (env.fs,
     qTrace ++
       [Event.ui (UIMsg.error
         "No Qwen vision model available. Please check your API key or available models in Alibaba Cloud Model Studio.")])
  else
    let qm := q.model.getD ""
    let successEvt := Event.successNote ("Using Qwen model: " ++ qm)
    let t := check_openai_tts_availability env.ttsBackend
    let tTrace := t.requests.map Event.speechCall ++ t.messages.map Event.ui
    match env.uploadedImage with
    | none => (env.fs, qTrace ++ [successEvt] ++ tTrace)
    | some image =>
      if env.buttonPressed = false then
        (env.fs, qTrace ++ [successEvt] ++ tTrace ++ [Event.showImage])
      else
        let g := generate_text_from_image env.qwenBackend image qm
        let gTrace := g.requests.map Event.chatCall ++ g.messages.map Event.ui
        let pre := qTrace ++ [successEvt] ++ tTrace ++ [Event.showImage] ++ gTrace
        if pyFalsy g.result then (env.fs, pre)
        else
          let description := g.result.getD ""
          let descTrace :=
            [Event.showText "**Generated Description:**", Event.showText description]
          if t.available then
            let s := text_to_speech env.ttsBackend env.fs description env.selectedVoice t.model
            let sTrace := s.requests.map Event.speechCall ++ s.messages.map Event.ui
            match s.result with
            | none => (s.fs, pre ++ descTrace ++ sTrace)
            | some path =>
              let audio_bytes := (s.fs path).getD []
              (s.fs,
               pre ++ descTrace ++ sTrace ++
                 [Event.audio audio_bytes, Event.downloadButton audio_bytes])
          else
            (env.fs,
             pre ++ descTrace ++
               [Event.ui (UIMsg.warning
                 "Text-to-speech is unavailable due to model access restrictions. The description is displayed above.")])

/-! ### Concrete demonstration worlds, used to instantiate the theorems -/

/-- A vision backend on which every chat call succeeds with the single
choice `"hello"`. -/
def demoChatOk : ChatBackend := fun _ => Except.ok ⟨[⟨⟨"hello"⟩⟩]⟩

/-- A vision backend on which probes (`max_tokens = 1`) succeed but
description requests raise. -/
def demoChatProbeOnly : ChatBackend := fun r =>
  if r.max_tokens = 1 then Except.ok ⟨[⟨⟨"ok"⟩⟩]⟩ else Except.error "gen failed"

/-- A speech backend on which every call succeeds with audio `[0]`. -/
def demoTtsOk : SpeechBackend := fun _ => Except.ok [0]

/-- A speech backend on which every call raises. -/
def demoTtsDown : SpeechBackend := fun _ => Except.error "no tts"

/-- The empty filesystem. -/
def emptyFS : FS := fun _ => none

/-- A trivial uploaded image. -/
def demoImage : Image := ⟨[]⟩

/-- A world whose speech backend is down but whose vision backend works. -/
def envTtsDown : Env := ⟨demoChatOk, demoTtsDown, some demoImage, true, "alloy", emptyFS⟩

/-- A world whose vision probe succeeds but whose description request
raises, with a working speech backend. -/
def envGenFails : Env := ⟨demoChatProbeOnly, demoTtsOk, some demoImage, true, "alloy", emptyFS⟩

/-! ### Characterization lemmas for the probe and generation functions -/

theorem check_qwen_primary_ok_eq (backend : ChatBackend) (resp : ChatResponse)
    (h : backend (probeRequest qwenPrimaryModel) = Except.ok resp) :
    check_qwen_model_availability backend =
      ⟨[probeRequest qwenPrimaryModel], [], true, some qwenPrimaryModel⟩ := by
  unfold check_qwen_model_availability
  rw [h]

theorem check_qwen_both_err_eq (backend : ChatBackend) (e1 e2 : String)
    (h1 : backend (probeRequest qwenPrimaryModel) = Except.error e1)
    (h2 : backend (probeRequest qwenFallbackModel) = Except.error e2) :
    check_qwen_model_availability backend =
      ⟨[probeRequest qwenPrimaryModel, probeRequest qwenFallbackModel],
       [UIMsg.warning ("Qwen Model (qwen2-vl-7b-instruct) not available: " ++ e1),
        UIMsg.error ("Fallback Qwen Model (qwen-vl-max) not available: " ++ e2)],
       false, none⟩ := by
  unfold check_qwen_model_availability
  rw [h1, h2]

theorem check_qwen_fallback_ok_eq (backend : ChatBackend) (e : String) (resp : ChatResponse)
    (h1 : backend (probeRequest qwenPrimaryModel) = Except.error e)
    (h2 : backend (probeRequest qwenFallbackModel) = Except.ok resp) :
    check_qwen_model_availability backend =
      ⟨[probeRequest qwenPrimaryModel, probeRequest qwenFallbackModel],
       [UIMsg.warning ("Qwen Model (qwen2-vl-7b-instruct) not available: " ++ e)],
       true, some qwenFallbackModel⟩ := by
  unfold check_qwen_model_availability
  rw [h1, h2]

theorem check_tts_ok_eq (backend : SpeechBackend) (audio : List Nat)
    (h : backend ttsProbeRequest = Except.ok audio) :
    check_openai_tts_availability backend = ⟨[ttsProbeRequest], [], true, some ttsModelName⟩ := by
  unfold check_openai_tts_availability
  rw [h]

theorem check_tts_err_eq (backend : SpeechBackend) (e : String)
    (h : backend ttsProbeRequest = Except.error e) :
    check_openai_tts_availability backend =
      ⟨[ttsProbeRequest],
       [UIMsg.error ("OpenAI TTS model (tts-1-hd) not available: " ++ e),
        UIMsg.warning
          "TTS functionality is unavailable. The app will display the text description only."],
       false, none⟩ := by
  unfold check_openai_tts_availability
  rw [h]

theorem generate_ok_eq (backend : ChatBackend) (image : Image) (model_name : String)
    (resp : ChatResponse) (choice : Choice) (rest : List Choice)
    (h : backend (describeRequest image model_name) = Except.ok resp)
    (hc : resp.choices = choice :: rest) :
    generate_text_from_image backend image model_name =
      ⟨[describeRequest image model_name], [], some choice.message.content⟩ := by
  unfold generate_text_from_image
  rw [h]
  simp [hc]

theorem generate_result_some_eq (backend : ChatBackend) (image : Image) (model_name : String)
    (d : String)
    (h : (generate_text_from_image backend image model_name).result = some d) :
    generate_text_from_image backend image model_name =
      ⟨[describeRequest image model_name], [], some d⟩ := by
  rcases hb : backend (describeRequest image model_name) with e | resp
  · simp [generate_text_from_image, hb] at h
  · rcases hc : resp.choices with _ | ⟨choice, rest⟩
    · simp [generate_text_from_image, hb, hc] at h
    · simp [generate_text_from_image, hb, hc] at h ⊢
      exact h

theorem check_tts_requests_eq (backend : SpeechBackend) :
    (check_openai_tts_availability backend).requests = [ttsProbeRequest] := by
  unfold check_openai_tts_availability
  rcases backend ttsProbeRequest with e | r <;> rfl

theorem generate_requests_eq (backend : ChatBackend) (image : Image) (model_name : String) :
    (generate_text_from_image backend image model_name).requests =
      [describeRequest image model_name] := by
  unfold generate_text_from_image
  rcases backend (describeRequest image model_name) with e | resp
  · rfl
  · rcases hc : resp.choices with _ | ⟨c, cs⟩ <;> simp [hc]

/-- The chunk list of a nonempty text starts with the first slice
`text[0:max_length]`. -/
theorem sliceChunks_head (text : String) (m : Nat) (hm : 0 < m) (ht : text.data ≠ []) :
    ∃ rest, sliceChunks text m = pySlice text 0 m :: rest := by
  have hlen : 0 < text.data.length := List.length_pos.mpr ht
  have hn : 0 < (text.data.length + m - 1) / m :=
    Nat.div_pos (by omega) hm
  obtain ⟨n, hn'⟩ := Nat.exists_eq_succ_of_ne_zero (Nat.pos_iff_ne_zero.mp hn)
  refine ⟨(List.range n).map fun k => pySlice text ((k + 1) * m) ((k + 1) * m + m), ?_⟩
  unfold sliceChunks
  rw [hn', List.range_succ_eq_map]
  simp [pySlice, Function.comp, Nat.succ_eq_add_one]

/-! ### Claim theorems -/

/-- C1: for every input text longer than 4096 characters (and a truthy
`tts_model`, as `main` always passes), `text_to_speech` issues exactly one
synthesis request, and its input is exactly the first slice `text[0:4096]`;
no slice after the first is ever passed to a synthesis call. -/
theorem tts_truncates_to_first_slice (backend : SpeechBackend) (fs : FS)
    (text voice : String) (tts_model : Option String)
    (hm : pyFalsy tts_model = false) (hlen : 4096 < text.data.length) :
    (text_to_speech backend fs text voice tts_model).requests =
      [⟨tts_model.getD "", voice, pySlice text 0 4096⟩] := by
  have ht : text.data ≠ [] := by
    intro h
    rw [h] at hlen
    simp at hlen
  obtain ⟨rest, hc⟩ := sliceChunks_head text 4096 (by norm_num) ht
  unfold text_to_speech
  rw [hm]
  simp only [Bool.false_eq_true, if_false]
  rw [hc]
  rcases hb : backend ⟨tts_model.getD "", voice, pySlice text 0 4096⟩ with e | audio <;>
    simp [hb]

/-- C1 witness: a 4097-character text is truncated to its first 4096
characters. -/
theorem tts_truncates_to_first_slice_witness :
    (text_to_speech (fun _ => Except.ok [0]) (fun _ => none)
        (String.mk (List.replicate 4097 'a')) "alloy" (some "tts-1-hd")).requests =
      [⟨"tts-1-hd", "alloy", pySlice (String.mk (List.replicate 4097 'a')) 0 4096⟩] :=
  tts_truncates_to_first_slice (fun _ => Except.ok [0]) (fun _ => none)
    (String.mk (List.replicate 4097 'a')) "alloy" (some "tts-1-hd") (by rfl)
    (by show (4096 : Nat) < (List.replicate 4097 'a').length
        rw [List.length_replicate]
        norm_num)

/-- C2: `check_qwen_model_availability` attempts each of the two models at
most once (its request trace is either the primary probe alone or the
primary then the fallback probe), and when the primary probe succeeds the
fallback is never attempted. -/
theorem qwen_probe_no_fallback_after_success (backend : ChatBackend) :
    ((check_qwen_model_availability backend).requests = [probeRequest qwenPrimaryModel] ∨
     (check_qwen_model_availability backend).requests =
       [probeRequest qwenPrimaryModel, probeRequest qwenFallbackModel]) ∧
    (∀ resp, backend (probeRequest qwenPrimaryModel) = Except.ok resp →
      (check_qwen_model_availability backend).requests = [probeRequest qwenPrimaryModel]) := by
  constructor
  · unfold check_qwen_model_availability
    rcases backend (probeRequest qwenPrimaryModel) with e | resp
    · rcases backend (probeRequest qwenFallbackModel) with fe | fresp
      · right; rfl
      · right; rfl
    · left; rfl
  · intro resp h
    rw [check_qwen_primary_ok_eq backend resp h]

/-- C5: `generate_text_from_image` returns the first choice's text content
when the backend call succeeds with a non-empty choice list, and returns
`none` after reporting an error message — without propagating the
exception — whenever the backend call raises. -/
theorem generate_text_result_spec (backend : ChatBackend) (image : Image)
    (model_name : String) :
    (∀ resp choice rest,
       backend (describeRequest image model_name) = Except.ok resp →
       resp.choices = choice :: rest →
       (generate_text_from_image backend image model_name).result =
         some choice.message.content) ∧
    (∀ e, backend (describeRequest image model_name) = Except.error e →
       (generate_text_from_image backend image model_name).result = none ∧
       (generate_text_from_image backend image model_name).messages =
         [UIMsg.error ("Error generating text from image: " ++ e)]) := by
  constructor
  · intro resp choice rest h hc
    rw [generate_ok_eq backend image model_name resp choice rest h hc]
  · intro e h
    unfold generate_text_from_image
    rw [h]
    exact ⟨rfl, rfl⟩

/-- C7: `check_openai_tts_availability` issues exactly one probe request,
against the single fixed model `"tts-1-hd"`; on success it returns
`(True, "tts-1-hd")` with no messages, and on any exception it returns
`(False, None)` after emitting exactly two messages: an error for the
failed probe and a warning that speech functionality will be skipped. -/
theorem tts_probe_single_attempt (backend : SpeechBackend) :
    (check_openai_tts_availability backend).requests = [ttsProbeRequest] ∧
    ttsProbeRequest.model = ttsModelName ∧
    (∀ resp, backend ttsProbeRequest = Except.ok resp →
       (check_openai_tts_availability backend).available = true ∧
       (check_openai_tts_availability backend).model = some "tts-1-hd" ∧
       (check_openai_tts_availability backend).messages = []) ∧
    (∀ e, backend ttsProbeRequest = Except.error e →
       (check_openai_tts_availability backend).available = false ∧
       (check_openai_tts_availability backend).model = none ∧
       (check_openai_tts_availability backend).messages =
         [UIMsg.error ("OpenAI TTS model (tts-1-hd) not available: " ++ e),
          UIMsg.warning
            "TTS functionality is unavailable. The app will display the text description only."]) := by
  refine ⟨?_, rfl, ?_, ?_⟩
  · unfold check_openai_tts_availability
    rcases backend ttsProbeRequest with e | resp <;> rfl
  · intro resp h
    rw [check_tts_ok_eq backend resp h]
    exact ⟨rfl, rfl, rfl⟩
  · intro e h
    rw [check_tts_err_eq backend e h]
    exact ⟨rfl, rfl, rfl⟩

/-- C9: both probes satisfy the invariant that availability holds exactly
when a model identifier (one of the three fixed names) is returned;
`(True, None)` and `(False, some model)` are never produced. -/
theorem probe_result_invariant (qb : ChatBackend) (tb : SpeechBackend) :
    ((check_qwen_model_availability qb).available = true ↔
      ((check_qwen_model_availability qb).model = some "qwen2-vl-7b-instruct" ∨
       (check_qwen_model_availability qb).model = some "qwen-vl-max")) ∧
    ((check_qwen_model_availability qb).available = false ↔
      (check_qwen_model_availability qb).model = none) ∧
    ((check_openai_tts_availability tb).available = true ↔
      (check_openai_tts_availability tb).model = some "tts-1-hd") ∧
    ((check_openai_tts_availability tb).available = false ↔
      (check_openai_tts_availability tb).model = none) := by
  have hq : ((check_qwen_model_availability qb).available = true ↔
      ((check_qwen_model_availability qb).model = some "qwen2-vl-7b-instruct" ∨
       (check_qwen_model_availability qb).model = some "qwen-vl-max")) ∧
      ((check_qwen_model_availability qb).available = false ↔
        (check_qwen_model_availability qb).model = none) := by
    rcases hb : qb (probeRequest qwenPrimaryModel) with e | r
    · rcases hb2 : qb (probeRequest qwenFallbackModel) with fe | fr
      · rw [check_qwen_both_err_eq qb e fe hb hb2]
        simp
      · rw [check_qwen_fallback_ok_eq qb e fr hb hb2]
        simp [qwenFallbackModel]
    · rw [check_qwen_primary_ok_eq qb r hb]
      simp [qwenPrimaryModel]
  have ht : ((check_openai_tts_availability tb).available = true ↔
      (check_openai_tts_availability tb).model = some "tts-1-hd") ∧
      ((check_openai_tts_availability tb).available = false ↔
        (check_openai_tts_availability tb).model = none) := by
    rcases hb : tb ttsProbeRequest with e | r
    · rw [check_tts_err_eq tb e hb]
      simp
    · rw [check_tts_ok_eq tb r hb]
      simp [ttsModelName]
  exact ⟨hq.1, hq.2, ht.1, ht.2⟩

/-- C10: on the empty input text (with a truthy `tts_model`), the chunk
list is empty, `chunks[0]` raises an `IndexError` that the handler
catches: `text_to_speech` issues no synthesis request, leaves the
filesystem untouched, reports the caught error, and returns `None`. -/
theorem empty_text_tts_returns_none (backend : SpeechBackend) (fs : FS)
    (voice : String) (tts_model : Option String) (hm : pyFalsy tts_model = false) :
    (text_to_speech backend fs "" voice tts_model).requests = [] ∧
    (text_to_speech backend fs "" voice tts_model).fs = fs ∧
    (text_to_speech backend fs "" voice tts_model).result = none ∧
    (text_to_speech backend fs "" voice tts_model).messages =
      [UIMsg.error "Error in text-to-speech conversion: list index out of range"] := by
  have hc : sliceChunks "" 4096 = [] := rfl
  unfold text_to_speech
  rw [hm]
  simp only [Bool.false_eq_true, if_false]
  rw [hc]
  exact ⟨rfl, rfl, rfl, rfl⟩

/-- C10 witness: the empty text with the model `main` passes. -/
theorem empty_text_tts_returns_none_witness :
    (text_to_speech (fun _ => Except.ok [0]) (fun _ => none) "" "alloy"
        (some "tts-1-hd")).requests = [] ∧
    (text_to_speech (fun _ => Except.ok [0]) (fun _ => none) "" "alloy"
        (some "tts-1-hd")).fs = (fun _ => none) ∧
    (text_to_speech (fun _ => Except.ok [0]) (fun _ => none) "" "alloy"
        (some "tts-1-hd")).result = none ∧
    (text_to_speech (fun _ => Except.ok [0]) (fun _ => none) "" "alloy"
        (some "tts-1-hd")).messages =
      [UIMsg.error "Error in text-to-speech conversion: list index out of range"] :=
  empty_text_tts_returns_none (fun _ => Except.ok [0]) (fun _ => none) "alloy"
    (some "tts-1-hd") (by rfl)

/-- C6: on successful synthesis (nonempty text, truthy model),
`text_to_speech` writes exactly the streamed audio bytes to the single
fixed path `"speech.mp3"`, replacing whatever the filesystem held there
and leaving every other path untouched, and returns that path; on a
failed backend call it returns `None` and leaves the filesystem as it
was. -/
theorem tts_writes_fixed_path (backend : SpeechBackend) (fs : FS) (text voice : String)
    (tts_model : Option String) (hm : pyFalsy tts_model = false) (ht : text.data ≠ []) :
    (∀ audio, backend ⟨tts_model.getD "", voice, pySlice text 0 4096⟩ = Except.ok audio →
       (text_to_speech backend fs text voice tts_model).fs speechFilePath = some audio ∧
       (∀ p, p ≠ speechFilePath →
         (text_to_speech backend fs text voice tts_model).fs p = fs p) ∧
       (text_to_speech backend fs text voice tts_model).result = some speechFilePath) ∧
    (∀ e, backend ⟨tts_model.getD "", voice, pySlice text 0 4096⟩ = Except.error e →
       (text_to_speech backend fs text voice tts_model).result = none ∧
       (text_to_speech backend fs text voice tts_model).fs = fs) := by
  obtain ⟨rest, hc⟩ := sliceChunks_head text 4096 (by norm_num) ht
  unfold text_to_speech
  rw [hm]
  simp only [Bool.false_eq_true, if_false]
  rw [hc]
  constructor
  · intro audio hb
    refine ⟨by simp [hb], ?_, by simp [hb]⟩
    intro p hp
    simp [hb, hp]
  · intro e hb
    exact ⟨by simp [hb], by simp [hb]⟩

/-- C6 witness: synthesis over a filesystem that already holds an old
`speech.mp3` replaces it with the newly streamed bytes. -/
theorem tts_writes_fixed_path_witness :
    (∀ audio,
       (fun _ => Except.ok [1, 2, 3] : SpeechBackend)
           ⟨(some "tts-1-hd").getD "", "alloy", pySlice "hi" 0 4096⟩ = Except.ok audio →
       (text_to_speech (fun _ => Except.ok [1, 2, 3]) (fun _ => some [9]) "hi" "alloy"
           (some "tts-1-hd")).fs speechFilePath = some audio ∧
       (∀ p, p ≠ speechFilePath →
         (text_to_speech (fun _ => Except.ok [1, 2, 3]) (fun _ => some [9]) "hi" "alloy"
             (some "tts-1-hd")).fs p = (fun _ => some [9] : FS) p) ∧
       (text_to_speech (fun _ => Except.ok [1, 2, 3]) (fun _ => some [9]) "hi" "alloy"
           (some "tts-1-hd")).result = some speechFilePath) ∧
    (∀ e,
       (fun _ => Except.ok [1, 2, 3] : SpeechBackend)
           ⟨(some "tts-1-hd").getD "", "alloy", pySlice "hi" 0 4096⟩ = Except.error e →
       (text_to_speech (fun _ => Except.ok [1, 2, 3]) (fun _ => some [9]) "hi" "alloy"
           (some "tts-1-hd")).result = none ∧
       (text_to_speech (fun _ => Except.ok [1, 2, 3]) (fun _ => some [9]) "hi" "alloy"
           (some "tts-1-hd")).fs = (fun _ => some [9])) :=
  tts_writes_fixed_path (fun _ => Except.ok [1, 2, 3]) (fun _ => some [9]) "hi" "alloy"
    (some "tts-1-hd") (by rfl) (by simp)

/-- C3: when both vision probes raise, `check_qwen_model_availability`
returns `(False, None)` without re-raising, and `main` halts after its
error message: no description request is ever issued, nothing past the
probe step is reached, and the filesystem is untouched. -/
theorem both_probes_fail_halts (env : Env) (e1 e2 : String)
    (h1 : env.qwenBackend (probeRequest qwenPrimaryModel) = Except.error e1)
    (h2 : env.qwenBackend (probeRequest qwenFallbackModel) = Except.error e2) :
    (check_qwen_model_availability env.qwenBackend).available = false ∧
    (check_qwen_model_availability env.qwenBackend).model = none ∧
    (main env).2 =
      [Event.chatCall (probeRequest qwenPrimaryModel),
       Event.chatCall (probeRequest qwenFallbackModel),
       Event.ui (UIMsg.warning ("Qwen Model (qwen2-vl-7b-instruct) not available: " ++ e1)),
       Event.ui (UIMsg.error ("Fallback Qwen Model (qwen-vl-max) not available: " ++ e2)),
       Event.ui (UIMsg.error
         "No Qwen vision model available. Please check your API key or available models in Alibaba Cloud Model Studio.")] ∧
    (∀ image m, Event.chatCall (describeRequest image m) ∉ (main env).2) ∧
    (main env).1 = env.fs := by
  have hq := check_qwen_both_err_eq env.qwenBackend e1 e2 h1 h2
  have hmain : main env =
      (env.fs,
       [Event.chatCall (probeRequest qwenPrimaryModel),
        Event.chatCall (probeRequest qwenFallbackModel),
        Event.ui (UIMsg.warning ("Qwen Model (qwen2-vl-7b-instruct) not available: " ++ e1)),
        Event.ui (UIMsg.error ("Fallback Qwen Model (qwen-vl-max) not available: " ++ e2)),
        Event.ui (UIMsg.error
          "No Qwen vision model available. Please check your API key or available models in Alibaba Cloud Model Studio.")]) := by
    simp [main, hq]
  refine ⟨by rw [hq], by rw [hq], by rw [hmain], ?_, by rw [hmain]⟩
  intro image m
  rw [hmain]
  simp [describeRequest, probeRequest]

/-- C3 witness: a world whose vision backend always raises. -/
theorem both_probes_fail_halts_witness :
    (check_qwen_model_availability
        (⟨fun _ => Except.error "down", fun _ => Except.ok [0], some ⟨[]⟩, true, "alloy",
          fun _ => none⟩ : Env).qwenBackend).available = false ∧
    (check_qwen_model_availability
        (⟨fun _ => Except.error "down", fun _ => Except.ok [0], some ⟨[]⟩, true, "alloy",
          fun _ => none⟩ : Env).qwenBackend).model = none ∧
    (main ⟨fun _ => Except.error "down", fun _ => Except.ok [0], some ⟨[]⟩, true, "alloy",
        fun _ => none⟩).2 =
      [Event.chatCall (probeRequest qwenPrimaryModel),
       Event.chatCall (probeRequest qwenFallbackModel),
       Event.ui (UIMsg.warning ("Qwen Model (qwen2-vl-7b-instruct) not available: " ++ "down")),
       Event.ui (UIMsg.error ("Fallback Qwen Model (qwen-vl-max) not available: " ++ "down")),
       Event.ui (UIMsg.error
         "No Qwen vision model available. Please check your API key or available models in Alibaba Cloud Model Studio.")] ∧
    (∀ image m,
      Event.chatCall (describeRequest image m) ∉
        (main ⟨fun _ => Except.error "down", fun _ => Except.ok [0], some ⟨[]⟩, true, "alloy",
            fun _ => none⟩).2) ∧
    (main ⟨fun _ => Except.error "down", fun _ => Except.ok [0], some ⟨[]⟩, true, "alloy",
        fun _ => none⟩).1 =
      (⟨fun _ => Except.error "down", fun _ => Except.ok [0], some ⟨[]⟩, true, "alloy",
        fun _ => none⟩ : Env).fs :=
  both_probes_fail_halts
    ⟨fun _ => Except.error "down", fun _ => Except.ok [0], some ⟨[]⟩, true, "alloy",
      fun _ => none⟩
    "down" "down" (by rfl) (by rfl)

/-- C4: when the speech probe reports unavailable but the vision probe
succeeded, `main` still generates the description and displays it, and in
that run `text_to_speech` is never called — the only synthesis request in
the trace is the probe's own — and no audio playback or download is
offered, the filesystem staying untouched. -/
theorem tts_unavailable_still_describes (env : Env) (resp : ChatResponse) (img : Image)
    (e d : String)
    (hq : env.qwenBackend (probeRequest qwenPrimaryModel) = Except.ok resp)
    (ht : env.ttsBackend ttsProbeRequest = Except.error e)
    (himg : env.uploadedImage = some img)
    (hbtn : env.buttonPressed = true)
    (hg : (generate_text_from_image env.qwenBackend img qwenPrimaryModel).result = some d)
    (hd : d.data ≠ []) :
    (main env).2 =
      [Event.chatCall (probeRequest qwenPrimaryModel),
       Event.successNote ("Using Qwen model: " ++ qwenPrimaryModel),
       Event.speechCall ttsProbeRequest,
       Event.ui (UIMsg.error ("OpenAI TTS model (tts-1-hd) not available: " ++ e)),
       Event.ui (UIMsg.warning
         "TTS functionality is unavailable. The app will display the text description only."),
       Event.showImage,
       Event.chatCall (describeRequest img qwenPrimaryModel),
       Event.showText "**Generated Description:**",
       Event.showText d,
       Event.ui (UIMsg.warning
         "Text-to-speech is unavailable due to model access restrictions. The description is displayed above.")] ∧
    (∀ r, Event.speechCall r ∈ (main env).2 → r = ttsProbeRequest) ∧
    (∀ b, Event.audio b ∉ (main env).2) ∧
    (∀ b, Event.downloadButton b ∉ (main env).2) ∧
    (main env).1 = env.fs := by
  have hq' := check_qwen_primary_ok_eq env.qwenBackend resp hq
  have ht' := check_tts_err_eq env.ttsBackend e ht
  have hg' := generate_result_some_eq env.qwenBackend img qwenPrimaryModel d hg
  have hde : d.data.isEmpty = false := by
    cases hdd : d.data
    · exact absurd hdd hd
    · simp [hdd]
  have hmain : main env =
      (env.fs,
       [Event.chatCall (probeRequest qwenPrimaryModel),
        Event.successNote ("Using Qwen model: " ++ qwenPrimaryModel),
        Event.speechCall ttsProbeRequest,
        Event.ui (UIMsg.error ("OpenAI TTS model (tts-1-hd) not available: " ++ e)),
        Event.ui (UIMsg.warning
          "TTS functionality is unavailable. The app will display the text description only."),
        Event.showImage,
        Event.chatCall (describeRequest img qwenPrimaryModel),
        Event.showText "**Generated Description:**",
        Event.showText d,
        Event.ui (UIMsg.warning
          "Text-to-speech is unavailable due to model access restrictions. The description is displayed above.")]) := by
    simp [main, hq', ht', himg, hbtn, hg', pyFalsy, hde]
  refine ⟨by rw [hmain], ?_, ?_, ?_, by rw [hmain]⟩
  · intro r hr
    rw [hmain] at hr
    simp at hr
    exact hr
  · intro b
    rw [hmain]
    simp
  · intro b
    rw [hmain]
    simp

/-- C4 witness: in the world `envTtsDown` the description `"hello"` is
generated and displayed, with no synthesis beyond the failed probe. -/
theorem tts_unavailable_still_describes_witness :
    (main envTtsDown).2 =
      [Event.chatCall (probeRequest qwenPrimaryModel),
       Event.successNote ("Using Qwen model: " ++ qwenPrimaryModel),
       Event.speechCall ttsProbeRequest,
       Event.ui (UIMsg.error ("OpenAI TTS model (tts-1-hd) not available: " ++ "no tts")),
       Event.ui (UIMsg.warning
         "TTS functionality is unavailable. The app will display the text description only."),
       Event.showImage,
       Event.chatCall (describeRequest demoImage qwenPrimaryModel),
       Event.showText "**Generated Description:**",
       Event.showText "hello",
       Event.ui (UIMsg.warning
         "Text-to-speech is unavailable due to model access restrictions. The description is displayed above.")] ∧
    (∀ r, Event.speechCall r ∈ (main envTtsDown).2 → r = ttsProbeRequest) ∧
    (∀ b, Event.audio b ∉ (main envTtsDown).2) ∧
    (∀ b, Event.downloadButton b ∉ (main envTtsDown).2) ∧
    (main envTtsDown).1 = envTtsDown.fs :=
  tts_unavailable_still_describes envTtsDown ⟨[⟨⟨"hello"⟩⟩]⟩ demoImage "no tts" "hello"
    (by rfl) (by rfl) (by rfl) (by rfl) (by rfl) (by simp)

/-- C8: when the vision flow proceeds but the generated description is
absent or empty (Python-falsy), `main` skips every dependent step: no
text is displayed, the only synthesis request that can appear in the
trace is the speech probe's own, no audio playback or download is
offered, and the filesystem is untouched. -/
theorem empty_description_skips_dependents (env : Env) (img : Image) (resp : ChatResponse)
    (hq : env.qwenBackend (probeRequest qwenPrimaryModel) = Except.ok resp)
    (himg : env.uploadedImage = some img)
    (hbtn : env.buttonPressed = true)
    (hg : pyFalsy (generate_text_from_image env.qwenBackend img qwenPrimaryModel).result
            = true) :
    (∀ s, Event.showText s ∉ (main env).2) ∧
    (∀ r, Event.speechCall r ∈ (main env).2 → r = ttsProbeRequest) ∧
    (∀ b, Event.audio b ∉ (main env).2) ∧
    (∀ b, Event.downloadButton b ∉ (main env).2) ∧
    (main env).1 = env.fs := by
  have hq' := check_qwen_primary_ok_eq env.qwenBackend resp hq
  refine ⟨?_, ?_, ?_, ?_, ?_⟩
  · intro s
    simp [main, hq', himg, hbtn, hg, check_tts_requests_eq, generate_requests_eq]
  · intro r hr
    simp [main, hq', himg, hbtn, hg, check_tts_requests_eq, generate_requests_eq] at hr
    exact hr
  · intro b
    simp [main, hq', himg, hbtn, hg, check_tts_requests_eq, generate_requests_eq]
  · intro b
    simp [main, hq', himg, hbtn, hg, check_tts_requests_eq, generate_requests_eq]
  · simp [main, hq', himg, hbtn, hg]

/-- C8 witness: in the world `envGenFails` the description request raises,
so no text is shown and no synthesis happens beyond the probe. -/
theorem empty_description_skips_dependents_witness :
    (∀ s, Event.showText s ∉ (main envGenFails).2) ∧
    (∀ r, Event.speechCall r ∈ (main envGenFails).2 → r = ttsProbeRequest) ∧
    (∀ b, Event.audio b ∉ (main envGenFails).2) ∧
    (∀ b, Event.downloadButton b ∉ (main envGenFails).2) ∧
    (main envGenFails).1 = envGenFails.fs :=
  empty_description_skips_dependents envGenFails demoImage ⟨[⟨⟨"ok"⟩⟩]⟩
    (by rfl) (by rfl) (by rfl) (by rfl)

end ImageCaption
